import Mathlib

/-!
Shallow embedding of the pattern normalization pipeline of
`cloud-run-ocr/iterative_processor.py` and of the Fairy Kiss pattern
generator `patterns/generateFairyKiss.py`, together with theorems that
settle the frozen claims about them.
-/

/-- JSON-like values, as produced by decoding the Text Interpreter's
replies.  Numbers are modelled as integers (the pipeline only manipulates
integral stitch counts); Python booleans are a separate constructor but
compare equal to 0 and 1 under `pyEq`, as in Python. -/
inductive JValue where
  | null
  | bool (b : Bool)
  | num (n : Int)
  | str (s : String)
  | arr (xs : List JValue)
  | obj (fields : List (String × JValue))

/-- A decoded JSON object: an association list of fields in insertion order
(Python dicts preserve insertion order). -/
abbrev JObj := List (String × JValue)

mutual

/-- Python equality (`==`) on decoded JSON values: numeric equality across
`bool`/`num` (Python `True == 1`), structural equality elsewhere. -/
def pyEq : JValue → JValue → Bool
  | .null, .null => true
  | .bool a, .bool b => a == b
  | .bool a, .num n => if a then n == 1 else n == 0
  | .num n, .bool b => if b then n == 1 else n == 0
  | .num a, .num b => a == b
  | .str a, .str b => a == b
  | .arr a, .arr b => pyEqList a b
  | .obj a, .obj b => pyEqObj a b
  | _, _ => false

def pyEqList : List JValue → List JValue → Bool
  | [], [] => true
  | a :: as, b :: bs => pyEq a b && pyEqList as bs
  | _, _ => false

def pyEqObj : List (String × JValue) → List (String × JValue) → Bool
  | [], [] => true
  | (k, v) :: as, (l, w) :: bs => k == l && pyEq v w && pyEqObj as bs
  | _, _ => false

end

mutual

/-- Python `repr` of a decoded JSON value (strings quoted). -/
def pyRepr : JValue → String
  | .null => "None"
  | .bool true => "True"
  | .bool false => "False"
  | .num n => toString n
  | .str s => "\x27" ++ s ++ "\x27"
  | .arr xs => "[" ++ pyReprList xs ++ "]"
  | .obj fs => "\x7b" ++ pyReprObj fs ++ "\x7d"

def pyReprList : List JValue → String
  | [] => ""
  | [x] => pyRepr x
  | x :: y :: rest => pyRepr x ++ ", " ++ pyReprList (y :: rest)

def pyReprObj : List (String × JValue) → String
  | [] => ""
  | [(k, v)] => "\x27" ++ k ++ "\x27: " ++ pyRepr v
  | (k, v) :: l :: rest => "\x27" ++ k ++ "\x27: " ++ pyRepr v ++ ", " ++ pyReprObj (l :: rest)

end

/-- Python `str` of a decoded JSON value, as interpolated by f-strings:
like `repr` except that a top-level string is unquoted. -/
def pyStr : JValue → String
  | .str s => s
  | v => pyRepr v

/-- `o[k]` lookup with `JValue.null` as the (never-observed) default;
used only where presence of `k` has already been established. -/
def jget (o : JObj) (k : String) : JValue :=
  (o.lookup k).getD .null

/-- Python `k in o` membership test on a dict. -/
def hasKey (o : JObj) (k : String) : Bool :=
  (o.lookup k).isSome

/-- Python `o[k]` item access: raises `KeyError` when the key is absent. -/
def getItem (o : JObj) (k : String) : Except String JValue :=
  match o.lookup k with
  | some v => .ok v
  | none => .error ("KeyError: " ++ k)

/-- Outcome of `_validate_stitch_counts`: either `{"valid": True}` or
`{"valid": False, "error": ...}` carrying the data interpolated into the
error f-string (the two step numbers and the two mismatched counts). -/
inductive ValidationResult where
  | valid
  | mismatch (stepA stepB endingCount startingCount : JValue)

/-- The error string `_validate_stitch_counts` formats on a mismatch. -/
def continuityErrorMsg (stepA stepB endingCount startingCount : JValue) : String :=
  "Stitch count mismatch between steps " ++ pyStr stepA ++ " and " ++ pyStr stepB ++
    ": " ++ pyStr endingCount ++ " != " ++ pyStr startingCount

/-- The pairwise loop of `_validate_stitch_counts`: for each adjacent pair,
compare `current_step["endingStitchCount"]` with
`next_step["startingStitchCount"]`; on the first mismatch build the error
(which also reads both steps' `step` fields) and return, scanning no
further.  A missing key is a Python `KeyError`, modelled as `.error`. -/
def validatePairs : List JObj → Except String ValidationResult
  | [] => .ok .valid
  | [_] => .ok .valid
  | a :: b :: rest =>
    match getItem a "endingStitchCount" with
    | .error e => .error e
    | .ok ea =>
      match getItem b "startingStitchCount" with
      | .error e => .error e
      | .ok sb =>
        if pyEq ea sb then
          validatePairs (b :: rest)
        else
          match getItem a "step" with
          | .error e => .error e
          | .ok na =>
            match getItem b "step" with
            | .error e => .error e
            | .ok nb => .ok (.mismatch na nb ea sb)

/-- `PatternProcessor._validate_stitch_counts`.  The Python guard
`if not steps: return {"valid": True}` is the empty-list case of
`validatePairs` (a `None` steps value, equally falsy, behaves the same
and is modelled by the caller passing `[]`). -/
def _validate_stitch_counts (steps : List JObj) : Except String ValidationResult :=
  validatePairs steps

/-- The required fields checked for every step object by
`_parse_steps_response`, in source order.  `side` is absent. -/
def stepRequiredFields : List String :=
  ["step", "startingStitchCount", "endingStitchCount", "instruction", "section", "type"]

/-- Error raised when step `i+1` (1-based position) lacks a field. -/
def stepMissingFieldMsg (pos : Nat) (field : String) : String :=
  "Step " ++ toString pos ++ " missing required field: " ++ field

/-- Error raised when a step's `step` field differs from its 1-based
position; interpolates the expected position and the actual value. -/
def stepNumberingErrorMsg (expected : Nat) (got : JValue) : String :=
  "Step numbering error: expected " ++ toString expected ++ ", got " ++ pyStr got

/-- The `for i, step in enumerate(steps)` loop of `_parse_steps_response`,
started at index `i`: check the required fields in order, then check
`step["step"] != i + 1`. -/
def validateStepsFrom : Nat → List JObj → Except String Unit
  | _, [] => .ok ()
  | i, s :: rest =>
    match stepRequiredFields.find? (fun f => !(hasKey s f)) with
    | some f => .error (stepMissingFieldMsg (i + 1) f)
    | none =>
      if pyEq (jget s "step") (.num ((i : Int) + 1)) then
        validateStepsFrom (i + 1) rest
      else
        .error (stepNumberingErrorMsg (i + 1) (jget s "step"))

/-- `PatternProcessor._parse_steps_response`, after JSON decoding and the
`isinstance(steps, list)` check: validate every step object, then return
the steps unchanged. -/
def _parse_steps_response (steps : List JObj) : Except String (List JObj) :=
  match validateStepsFrom 0 steps with
  | .error e => .error e
  | .ok _ => .ok steps

/-- The required fields checked for every glossary entry by
`_parse_glossary_response`, in source order. -/
def glossaryRequiredFields : List String :=
  ["name", "description", "stitchesUsed", "stitchesCreated"]

/-- Python `isinstance(x, (int, float))`: numbers, and booleans (Python
`bool` is a subclass of `int`).  Floats are not produced by this model. -/
def isNumericPy : JValue → Bool
  | .num _ => true
  | .bool _ => true
  | _ => false

def glossaryMissingFieldMsg (abbr field : String) : String :=
  "Glossary entry \x27" ++ abbr ++ "\x27 missing required field: " ++ field

def glossaryInvalidUsedMsg (abbr : String) : String :=
  "Glossary entry \x27" ++ abbr ++ "\x27 has invalid stitchesUsed value"

def glossaryInvalidCreatedMsg (abbr : String) : String :=
  "Glossary entry \x27" ++ abbr ++ "\x27 has invalid stitchesCreated value"

/-- The per-entry checks of `_parse_glossary_response`: required fields in
order, then `isinstance` checks on the two count fields.  No check of
non-negativity appears in the source. -/
def validateGlossaryEntry (abbr : String) (stitch : JObj) : Except String Unit :=
  match glossaryRequiredFields.find? (fun f => !(hasKey stitch f)) with
  | some f => .error (glossaryMissingFieldMsg abbr f)
  | none =>
    if !(isNumericPy (jget stitch "stitchesUsed")) then
      .error (glossaryInvalidUsedMsg abbr)
    else if !(isNumericPy (jget stitch "stitchesCreated")) then
      .error (glossaryInvalidCreatedMsg abbr)
    else
      .ok ()

/-- A decoded glossary: abbreviation → entry object, in insertion order. -/
abbrev Glossary := List (String × JObj)

/-- The `for abbrev, stitch in glossary.items()` loop of
`_parse_glossary_response`. -/
def validateGlossaryEntries : Glossary → Except String Unit
  | [] => .ok ()
  | (abbr, stitch) :: rest =>
    match validateGlossaryEntry abbr stitch with
    | .error e => .error e
    | .ok _ => validateGlossaryEntries rest

/-- `PatternProcessor._parse_glossary_response`, after JSON decoding:
validate every entry, then return the glossary unchanged. -/
def _parse_glossary_response (glossary : Glossary) : Except String Glossary :=
  match validateGlossaryEntries glossary with
  | .error e => .error e
  | .ok _ => .ok glossary

/-- Result of one processing pass: the `{"success": True, "data": ..,
"step": ..}` / `{"success": False, "error": .., "step": ..}` dicts. -/
inductive PassResult (α : Type) where
  | ok (data : α) (step : String)
  | fail (error : String) (step : String)

/-- The `success` field of a pass result dict. -/
def PassResult.success {α : Type} : PassResult α → Bool
  | .ok .. => true
  | .fail .. => false

/-- `ProcessingContext`: the mutable aggregate threaded through the
pipeline.  `structure` is a Lean keyword, hence the escaped field name. -/
structure ProcessingContext where
  original_text : String
  metadata : JObj
  «structure» : Option JValue
  glossary : Option Glossary
  steps : Option (List JObj)

/-- `{**context.metadata, "maxSteps": v}`: a dict merge that overwrites
the key in place when present and appends it otherwise (dict keys are
unique, so replacing the first occurrence is the dict semantics). -/
def setKey : JObj → String → JValue → JObj
  | [], k, v => [(k, v)]
  | (k2, v2) :: rest, k, v =>
    if k2 = k then (k, v) :: rest else (k2, v2) :: setKey rest k v

/-- The final artifact assembled by `pass_4_validation_assembly`:
`{"metadata": .., "glossary": .., "steps": ..}`. -/
structure NormalizedPatternDocument where
  metadata : JObj
  glossary : Glossary
  steps : List JObj

/-- `PatternProcessor.pass_4_validation_assembly`: run
`_validate_stitch_counts` on `context.steps`, fail on an invalid result
(step name `"validation"`) or an exception (step name
`"validation_assembly"`), otherwise assemble the final pattern with
`maxSteps = len(context.steps) if context.steps else 0`,
`context.glossary or {}` and `context.steps or []`.  A `None` steps or
glossary and an empty one behave identically under Python truthiness, so
both are modelled by `Option.getD`. -/
def pass_4_validation_assembly (context : ProcessingContext) :
    PassResult NormalizedPatternDocument :=
  match _validate_stitch_counts (context.steps.getD []) with
  | .error e => .fail e "validation_assembly"
  | .ok (.mismatch a b ec sc) =>
    .fail ("Validation failed: " ++ continuityErrorMsg a b ec sc) "validation"
  | .ok .valid =>
    .ok
      { metadata := setKey context.metadata "maxSteps"
          (.num ((context.steps.getD []).length : Int))
        glossary := context.glossary.getD []
        steps := context.steps.getD [] }
      "validation_assembly"

/-- `PatternProcessor._execute_processing_pipeline`, with the four passes
as explicit function parameters (Passes 1–3 call the external Text
Interpreter) and the implicit mutation of the context made explicit: the
function returns the run's outcome together with the final context.  A
pass failure is returned verbatim and no later pass is applied. -/
def _execute_processing_pipeline {δ : Type}
    (p1 : ProcessingContext → PassResult JValue)
    (p2 : ProcessingContext → PassResult Glossary)
    (p3 : ProcessingContext → PassResult (List JObj))
    (p4 : ProcessingContext → PassResult δ)
    (context : ProcessingContext) : PassResult δ × ProcessingContext :=
  match p1 context with
  | .fail e s => (.fail e s, context)
  | .ok d1 _ =>
    let context1 := { context with «structure» := some d1 }
    match p2 context1 with
    | .fail e s => (.fail e s, context1)
    | .ok d2 _ =>
      let context2 := { context1 with glossary := some d2 }
      match p3 context2 with
      | .fail e s => (.fail e s, context2)
      | .ok d3 _ =>
        let context3 := { context2 with steps := some d3 }
        (p4 context3, context3)

/-- The Text Interpreter's decoded replies for one run: either an API /
JSON-decode failure (modelled as the error string the pass surfaces) or
the decoded value.  JSON decoding itself is outside the embedded core. -/
structure InterpreterResponses where
  structureResp : Except String JValue
  glossaryResp : Except String Glossary
  stepsResp : Except String (List JObj)

/-- `PatternProcessor.pass_1_structure_analysis`: surface an interpreter
failure, otherwise accept the decoded structure (the defaulting of the
five optional top-level fields in `_parse_structure_response` does not
affect success and is not needed by any claim, so the structure value is
carried opaquely). -/
def pass_1_structure_analysis (resp : Except String JValue)
    (_context : ProcessingContext) : PassResult JValue :=
  match resp with
  | .error e => .fail e "structure_analysis"
  | .ok v => .ok v "structure_analysis"

/-- `PatternProcessor.pass_2_glossary_building`: surface an interpreter
failure, otherwise validate the decoded glossary with
`_parse_glossary_response`; a validation exception becomes a tagged
failure. -/
def pass_2_glossary_building (resp : Except String Glossary)
    (_context : ProcessingContext) : PassResult Glossary :=
  match resp with
  | .error e => .fail e "glossary_building"
  | .ok g =>
    match _parse_glossary_response g with
    | .error e => .fail e "glossary_building"
    | .ok g2 => .ok g2 "glossary_building"

/-- `PatternProcessor.pass_3_section_processing`: surface an interpreter
failure, otherwise validate the decoded steps with
`_parse_steps_response`; a validation exception becomes a tagged
failure. -/
def pass_3_section_processing (resp : Except String (List JObj))
    (_context : ProcessingContext) : PassResult (List JObj) :=
  match resp with
  | .error e => .fail e "section_processing"
  | .ok steps =>
    match _parse_steps_response steps with
    | .error e => .fail e "section_processing"
    | .ok s2 => .ok s2 "section_processing"

/-- One full run of the pipeline on the given interpreter replies. -/
def run_pipeline (resps : InterpreterResponses) (context : ProcessingContext) :
    PassResult NormalizedPatternDocument × ProcessingContext :=
  _execute_processing_pipeline
    (pass_1_structure_analysis resps.structureResp)
    (pass_2_glossary_building resps.glossaryResp)
    (pass_3_section_processing resps.stepsResp)
    pass_4_validation_assembly
    context

/-- The glossary literal of `generateFairyKiss.py`. -/
def fairyKissGlossary : Glossary :=
  [ ("k", [("name", .str "Knit"), ("description", .str "Knit stitch."),
      ("stitchesUsed", .num 1), ("stitchesCreated", .num 1)]),
    ("p", [("name", .str "Purl"), ("description", .str "Purl stitch."),
      ("stitchesUsed", .num 1), ("stitchesCreated", .num 1)]),
    ("sl", [("name", .str "Slip"), ("description", .str "Slip stitch purlwise."),
      ("stitchesUsed", .num 1), ("stitchesCreated", .num 1)]),
    ("sl knitwise", [("name", .str "Slip Knitwise"),
      ("description", .str "Slip stitch as if to knit."),
      ("stitchesUsed", .num 1), ("stitchesCreated", .num 1)]),
    ("kfb", [("name", .str "Knit Front and Back"),
      ("description", .str "Knit into front and back of the stitch (1 st increase)."),
      ("stitchesUsed", .num 1), ("stitchesCreated", .num 2)]),
    ("k2tog tbl", [("name", .str "Knit 2 Together Through Back Loop"),
      ("description", .str "Decrease."),
      ("stitchesUsed", .num 2), ("stitchesCreated", .num 1)]),
    ("k3tog", [("name", .str "Knit 3 Together"),
      ("description", .str "Knit 3 stitches together (2 st decrease)."),
      ("stitchesUsed", .num 3), ("stitchesCreated", .num 1)]),
    ("yo", [("name", .str "Yarn Over"), ("description", .str "Increase (1 st increase)."),
      ("stitchesUsed", .num 0), ("stitchesCreated", .num 1)]),
    ("wyib", [("name", .str "With Yarn in Back"),
      ("description", .str "Carry the yarn at the back of the work."),
      ("stitchesUsed", .num 0), ("stitchesCreated", .num 0)]),
    ("wyif", [("name", .str "With Yarn in Front"),
      ("description", .str "Carry the yarn at the front of the work."),
      ("stitchesUsed", .num 0), ("stitchesCreated", .num 0)]),
    ("BO", [("name", .str "Bind Off"), ("description", .str "Bind off stitches."),
      ("stitchesUsed", .num 1), ("stitchesCreated", .num 0)]) ]

/-- A regular step dict as appended by every row loop of
`generateFairyKiss.py`, with its exact key order. -/
def mkRegularStep (stepNum count : Nat) (inst sectionLabel sideLabel : String) : JObj :=
  [ ("step", .num (stepNum : Int)),
    ("startingStitchCount", .num (count : Int)),
    ("endingStitchCount", .num (count : Int)),
    ("instruction", .str inst),
    ("section", .str sectionLabel),
    ("side", .str sideLabel),
    ("type", .str "regular") ]

/-- The cast-on record appended first (step number 0): a special
instruction with a `description`, no stitch counts and no side. -/
def castOnStep : JObj :=
  [ ("step", .num 0),
    ("description", .str "With MC, cast on 100 sts."),
    ("section", .str "Setup"),
    ("type", .str "specialInstruction") ]

/-- The bind-off record appended last: a special instruction with a
`description`, no stitch counts and no side. -/
def bindOffStep (stepNum : Nat) : JObj :=
  [ ("step", .num (stepNum : Int)),
    ("description", .str "Bind off loosely on the right side."),
    ("section", .str "Finishing"),
    ("type", .str "specialInstruction") ]

/-- The five `setup_rows` of `generateFairyKiss.py` as
(instruction, side) pairs. -/
def setup_rows : List (String × String) :=
  [ ("knit to last 2 sts, sl2 wyif.", "WS"),
    ("k2tog tbl, k to last 2 sts, kfb, p1.", "RS"),
    ("sl1 knitwise wyib, k to last 2 sts, sl 2 wyif.", "WS"),
    ("k2tog tbl, k3, [yo, k3tog, yo, k1] to last 3 sts, yo, k2, p1.", "RS"),
    ("sl1 knitwise wyib, k2, p to last 4 sts, k2, sl 2 wyif.", "WS") ]

/-- The four `main_body_repeat_rows` of `generateFairyKiss.py`. -/
def main_body_repeat_rows : List (String × String) :=
  [ ("CC Row 1(RS): k2tog tbl, [k3, sl 1 wyib] to last 2 sts, kfb, p1.", "RS"),
    ("Row 2 (WS): sl1 knitwise wyib, k2, sl 1 wyif, [p3, sl 1 wyif] to last 4 sts, k2, sl 2 wyif.", "WS"),
    ("MC Row 3: k2tog tbl, k3, [yo, k3tog, yo, k1] to last 3 sts, yo, k2, p1.", "RS"),
    ("Row 4: sl1 knitwise wyib, k2, p to last 4 sts, k2, sl 2 wyif.", "WS") ]

/-- The two `ending_rows` of `generateFairyKiss.py`. -/
def ending_rows : List (String × String) :=
  [ ("k2tog tbl, k to last 2 sts, kfb, p1.", "RS"),
    ("sl1 knitwise wyib, k to end.", "WS") ]

/-- One `for row in rows:` loop of `generateFairyKiss.py`: emit one
regular step per row, incrementing the step counter; the stitch count
stays constant (the script never recomputes it). -/
def emitRows : List (String × String) → Nat → Nat → String → List JObj
  | [], _, _, _ => []
  | (inst, sideLabel) :: rest, stepNum, count, sectionLabel =>
    mkRegularStep stepNum count inst sectionLabel sideLabel ::
      emitRows rest (stepNum + 1) count sectionLabel

/-- The nested `for i in range(times): for row in rows:` loop of
`generateFairyKiss.py` (lines 74–85), with the repeat count, the starting
step number and the section base as parameters: emission `i` carries the
section label `base ++ " - Repeat " ++ toString (i+1)` and starts at step
`startStep + i * rows.length`. -/
def expandRowRepeat (rows : List (String × String)) (times startStep count : Nat)
    (sectionBase : String) : List JObj :=
  (List.range times).flatMap (fun i =>
    emitRows rows (startStep + i * rows.length) count
      (sectionBase ++ " - Repeat " ++ toString (i + 1)))

/-- The full `output_steps_array` built by `parse_fairy_kiss_pattern`:
cast-on (step 0), five setup rows (steps 1–5), 112 repeats of the four
main-body rows (steps 6–453), two ending rows (steps 454–455), and the
bind-off (step 456). -/
def fairy_kiss_steps : List JObj :=
  castOnStep ::
    (emitRows setup_rows 1 100 "Setup" ++
      expandRowRepeat main_body_repeat_rows 112 6 100 "Main Body" ++
      emitRows ending_rows 454 100 "Ending" ++
      [bindOffStep 456])

/-- The final output of `parse_fairy_kiss_pattern`: metadata (with
`maxSteps` set to the final value of `current_step_number`, 456), the
glossary, and the steps array. -/
def parse_fairy_kiss_pattern : NormalizedPatternDocument :=
  { metadata :=
      [ ("name", .str "Fairy Kiss"),
        ("author", .str "Alina Appasova"),
        ("craft", .str "knitting"),
        ("maxSteps", .num 456) ]
    glossary := fairyKissGlossary
    steps := fairy_kiss_steps }

/-- Modelled from the spec: the glossary's stitch-count delta,
`delta(abbreviation) = stitchesCreated - stitchesUsed` (spec §4.1 and the
arithmetic stated in the Pass-2 prompt text); no such function exists in
the source, which never re-derives counts.  `none` when the abbreviation
is absent or its counts are not integers. -/
def glossaryDelta (g : Glossary) (tok : String) : Option Int :=
  match g.lookup tok with
  | none => none
  | some e =>
    match e.lookup "stitchesCreated", e.lookup "stitchesUsed" with
    | some (.num c), some (.num u) => some (c - u)
    | _, _ => none

/-- Splitting helper for `specTokens`: scan the character list, cutting at
every comma-plus-space separator. -/
def splitTokensAux : List Char → List Char → List String
  | [], acc => [String.mk acc.reverse]
  | ',' :: ' ' :: rest, acc => String.mk acc.reverse :: splitTokensAux rest []
  | ch :: rest, acc => splitTokensAux rest (ch :: acc)

/-- Modelled from the spec: a resolved row's literal tokens, separated by
the pattern's normal separator, comma-plus-space (spec §4.4 step 3). -/
def specTokens (instr : String) : List String :=
  splitTokensAux instr.data []

/-- Modelled from the spec: the total glossary delta of a row with literal
tokens only, `Σ glossary.delta(token)`; `none` when any token lacks a
glossary entry. -/
def specRowDelta (g : Glossary) (instr : String) : Option Int :=
  (specTokens instr).foldl
    (fun acc tok =>
      match acc, glossaryDelta g tok with
      | some a, some d => some (a + d)
      | _, _ => none)
    (some 0)

/-- The per-step condition `_parse_steps_response` enforces at 0-based
index `i`: all six required fields present, and the `step` field equal
(under Python `==`) to `i + 1`. -/
def stepOk (i : Nat) (s : JObj) : Prop :=
  (∀ f ∈ stepRequiredFields, hasKey s f = true) ∧
    pyEq (jget s "step") (.num ((i : Int) + 1)) = true

instance (i : Nat) (s : JObj) : Decidable (stepOk i s) :=
  inferInstanceAs (Decidable ((∀ f ∈ stepRequiredFields, hasKey s f = true) ∧
    pyEq (jget s "step") (.num ((i : Int) + 1)) = true))

/-- The adjacent-pair continuity relation checked by
`_validate_stitch_counts`. -/
def contOk (a b : JObj) : Prop :=
  pyEq (jget a "endingStitchCount") (jget b "startingStitchCount") = true

instance (a b : JObj) : Decidable (contOk a b) :=
  inferInstanceAs (Decidable
    (pyEq (jget a "endingStitchCount") (jget b "startingStitchCount") = true))

/-- The per-entry condition `_parse_glossary_response` enforces: all four
required fields present and both count fields numeric. -/
def entryOk (e : JObj) : Prop :=
  (∀ f ∈ glossaryRequiredFields, hasKey e f = true) ∧
    isNumericPy (jget e "stitchesUsed") = true ∧
    isNumericPy (jget e "stitchesCreated") = true

instance (e : JObj) : Decidable (entryOk e) :=
  inferInstanceAs (Decidable ((∀ f ∈ glossaryRequiredFields, hasKey e f = true) ∧
    isNumericPy (jget e "stitchesUsed") = true ∧
    isNumericPy (jget e "stitchesCreated") = true))

/-- A fresh processing context as built by `process_pattern_iteratively`. -/
def baseCtx : ProcessingContext :=
  { original_text := "pattern text"
    metadata := [("name", .str "Demo"), ("author", .str "A"), ("craft", .str "knitting")]
    «structure» := none
    glossary := none
    steps := none }

/-- A step whose ending count (12) will not match its successor. -/
def c1StepA : JObj :=
  [ ("step", .num 1), ("startingStitchCount", .num 10), ("endingStitchCount", .num 12),
    ("instruction", .str "kfb, k to end"), ("section", .str "body"), ("type", .str "regular") ]

/-- A successor step whose starting count (99) mismatches 12. -/
def c1StepB : JObj :=
  [ ("step", .num 2), ("startingStitchCount", .num 99), ("endingStitchCount", .num 99),
    ("instruction", .str "k to end"), ("section", .str "body"), ("type", .str "regular") ]

/-- A successor step whose starting count matches 12. -/
def c1StepBGood : JObj :=
  [ ("step", .num 2), ("startingStitchCount", .num 12), ("endingStitchCount", .num 12),
    ("instruction", .str "k to end"), ("section", .str "body"), ("type", .str "regular") ]

/-- An object with no fields at all: reading any field of it would raise
`KeyError`, so a validator that scanned past the first violation onto this
record could not return a mismatch result. -/
def c1Garbage : JObj := []

/-- A one-entry glossary mapping `k` to a zero-delta entry. -/
def c2Glossary : Glossary :=
  [ ("k", [("name", .str "Knit"), ("description", .str "Knit stitch."),
      ("stitchesUsed", .num 1), ("stitchesCreated", .num 1)]) ]

/-- A step whose arithmetic contradicts `c2Glossary`: its only token `k`
has delta 0, yet the counts jump from 10 to 50. -/
def c2Step : JObj :=
  [ ("step", .num 1), ("startingStitchCount", .num 10), ("endingStitchCount", .num 50),
    ("instruction", .str "k"), ("section", .str "body"), ("type", .str "regular") ]

/-- Interpreter replies that make every pass succeed with `c2Step`. -/
def c2Resps : InterpreterResponses :=
  { structureResp := .ok (.obj [])
    glossaryResp := .ok c2Glossary
    stepsResp := .ok [c2Step] }

/-- A single step numbered 7 instead of 1. -/
def c3BadStep : JObj :=
  [ ("step", .num 7), ("startingStitchCount", .num 10), ("endingStitchCount", .num 10),
    ("instruction", .str "k"), ("section", .str "s"), ("type", .str "regular") ]

/-- A glossary entry whose `stitchesUsed` is numeric but negative. -/
def c5NegEntry : JObj :=
  [ ("name", .str "Mystery"), ("description", .str "Negative used count."),
    ("stitchesUsed", .num (-1)), ("stitchesCreated", .num 1) ]

/-- Two well-formed, correctly numbered steps with no side field. -/
def c10Steps : List JObj :=
  [ [ ("step", .num 1), ("startingStitchCount", .num 20), ("endingStitchCount", .num 20),
      ("instruction", .str "k to end"), ("section", .str "setup"), ("type", .str "regular") ],
    [ ("step", .num 2), ("startingStitchCount", .num 20), ("endingStitchCount", .num 21),
      ("instruction", .str "kfb, k to end"), ("section", .str "setup"), ("type", .str "regular") ] ]

/-- A two-row net-zero template, as in the spec scenario for row-repeats. -/
def c9DemoRows : List (String × String) :=
  [ ("k to end", "RS"), ("p to end", "WS") ]

/-! Helper lemmas about the embedded validators. -/

theorem getItem_eq_ok {o : JObj} {k : String} (h : hasKey o k = true) :
    getItem o k = .ok (jget o k) := by
  unfold hasKey at h
  unfold getItem jget
  cases hl : o.lookup k with
  | none => rw [hl] at h; simp at h
  | some v => simp

theorem validateStepsFrom_ok_iff (steps : List JObj) (i : Nat) :
    validateStepsFrom i steps = .ok () ↔ ∀ j a, steps[j]? = some a → stepOk (i + j) a := by
  induction steps generalizing i with
  | nil => simp [validateStepsFrom]
  | cons s rest ih =>
    rw [validateStepsFrom]
    cases hf : stepRequiredFields.find? (fun f => !(hasKey s f)) with
    | some f =>
      simp only [reduceCtorEq, false_iff]
      intro hall
      have h0 := hall 0 s (by simp)
      have hmem := List.mem_of_find?_eq_some hf
      have hprop := List.find?_some hf
      have := h0.1 f hmem
      rw [this] at hprop
      simp at hprop
    | none =>
      have hall : ∀ f ∈ stepRequiredFields, hasKey s f = true := by
        intro f hfmem
        have := List.find?_eq_none.mp hf f hfmem
        simpa using this
      cases hnum : pyEq (jget s "step") (.num ((i : Int) + 1)) with
      | false =>
        simp only [Bool.false_eq_true, if_false, reduceCtorEq, false_iff]
        intro hcontra
        have h0 := hcontra 0 s (by simp)
        rw [Nat.add_zero] at h0
        rw [h0.2] at hnum
        exact Bool.true_eq_false.mp hnum
      | true =>
        simp only [if_true]
        rw [ih (i + 1)]
        constructor
        · intro hrest j a hja
          cases j with
          | zero =>
            simp at hja
            subst hja
            exact ⟨hall, hnum⟩
          | succ j2 =>
            have := hrest j2 a (by simpa using hja)
            have harith : i + (j2 + 1) = i + 1 + j2 := by omega
            rw [harith]
            exact this
        · intro hcons j a hja
          have := hcons (j + 1) a (by simpa using hja)
          have harith : i + (j + 1) = i + 1 + j := by omega
          rw [harith] at this
          exact this

theorem validateStepsFrom_numbering_error (steps : List JObj) (i j : Nat) (a : JObj)
    (hja : steps[j]? = some a)
    (hprev : ∀ k b, k < j → steps[k]? = some b → stepOk (i + k) b)
    (hfields : ∀ f ∈ stepRequiredFields, hasKey a f = true)
    (hnum : pyEq (jget a "step") (.num (((i + j : Nat) : Int) + 1)) = false) :
    validateStepsFrom i steps = .error (stepNumberingErrorMsg (i + j + 1) (jget a "step")) := by
  induction steps generalizing i j with
  | nil => simp at hja
  | cons s rest ih =>
    cases j with
    | zero =>
      simp at hja
      subst hja
      rw [validateStepsFrom]
      cases hf : stepRequiredFields.find? (fun f => !(hasKey s f)) with
      | some f =>
        have hmem := List.mem_of_find?_eq_some hf
        have hprop := List.find?_some hf
        rw [hfields f hmem] at hprop
        simp at hprop
      | none =>
        simp only [Nat.add_zero] at hnum
        rw [hnum]
        simp
    | succ j2 =>
      have hs := hprev 0 s (Nat.succ_pos j2) (by simp)
      rw [validateStepsFrom]
      cases hf : stepRequiredFields.find? (fun f => !(hasKey s f)) with
      | some f =>
        have hmem := List.mem_of_find?_eq_some hf
        have hprop := List.find?_some hf
        rw [hs.1 f hmem] at hprop
        simp at hprop
      | none =>
        rw [Nat.add_zero] at hs
        rw [hs.2]
        simp only [if_true]
        have harith : i + (j2 + 1) = i + 1 + j2 := by omega
        rw [harith] at hnum ⊢
        exact ih (i + 1) j2 (by simpa using hja)
          (fun k b hk hkb => by
            have := hprev (k + 1) b (by omega) (by simpa using hkb)
            have harith2 : i + (k + 1) = i + 1 + k := by omega
            rw [harith2] at this
            exact this)
          hnum

theorem validatePairs_valid_iff (steps : List JObj)
    (h : ∀ s ∈ steps, hasKey s "endingStitchCount" = true ∧
      hasKey s "startingStitchCount" = true) :
    validatePairs steps = .ok .valid ↔ List.Chain' contOk steps := by
  induction steps with
  | nil => simp [validatePairs]
  | cons a rest ih =>
    cases rest with
    | nil => simp [validatePairs]
    | cons b rest2 =>
      rw [validatePairs]
      rw [getItem_eq_ok (h a (by simp)).1, getItem_eq_ok (h b (by simp)).2]
      simp only []
      cases hm : pyEq (jget a "endingStitchCount") (jget b "startingStitchCount") with
      | true =>
        simp only [if_true]
        rw [ih (fun s hs => h s (List.mem_cons_of_mem a hs))]
        rw [List.chain'_cons]
        have : contOk a b := hm
        simp [this]
      | false =>
        simp only [Bool.false_eq_true, if_false]
        rw [List.chain'_cons]
        have hnot : ¬ contOk a b := by
          unfold contOk
          rw [hm]
          simp
        simp only [hnot, false_and, iff_false]
        cases getItem a "step" with
        | error e => simp
        | ok na =>
          cases getItem b "step" with
          | error e => simp
          | ok nb => simp

theorem validatePairs_first_mismatch (steps : List JObj) (j : Nat) (a b : JObj)
    (hja : steps[j]? = some a) (hjb : steps[j + 1]? = some b)
    (hprev : ∀ k c d, k < j → steps[k]? = some c → steps[k + 1]? = some d →
      hasKey c "endingStitchCount" = true ∧ hasKey d "startingStitchCount" = true ∧ contOk c d)
    (hae : hasKey a "endingStitchCount" = true)
    (hbt : hasKey b "startingStitchCount" = true)
    (hmm : pyEq (jget a "endingStitchCount") (jget b "startingStitchCount") = false)
    (hstepa : hasKey a "step" = true)
    (hstepb : hasKey b "step" = true) :
    validatePairs steps = .ok (.mismatch (jget a "step") (jget b "step")
      (jget a "endingStitchCount") (jget b "startingStitchCount")) := by
  induction steps generalizing j with
  | nil => simp at hja
  | cons s rest ih =>
    cases j with
    | zero =>
      simp at hja
      subst hja
      cases rest with
      | nil => simp at hjb
      | cons s2 rest2 =>
        simp at hjb
        subst hjb
        rw [validatePairs, getItem_eq_ok hae, getItem_eq_ok hbt]
        simp only []
        rw [hmm]
        simp only [Bool.false_eq_true, if_false]
        rw [getItem_eq_ok hstepa, getItem_eq_ok hstepb]
    | succ j2 =>
      cases rest with
      | nil => simp at hja
      | cons s2 rest2 =>
        have hpair0 := hprev 0 s s2 (Nat.succ_pos j2) (by simp) (by simp)
        rw [validatePairs, getItem_eq_ok hpair0.1, getItem_eq_ok hpair0.2.1]
        simp only []
        have hc : pyEq (jget s "endingStitchCount") (jget s2 "startingStitchCount") = true :=
          hpair0.2.2
        rw [hc]
        simp only [if_true]
        exact ih j2 (by simpa using hja) (by simpa using hjb)
          (fun k c d hk hkc hkd => hprev (k + 1) c d (by omega)
            (by simpa using hkc) (by simpa using hkd))

theorem validateGlossaryEntry_ok_iff (abbr : String) (e : JObj) :
    validateGlossaryEntry abbr e = .ok () ↔ entryOk e := by
  unfold validateGlossaryEntry entryOk
  cases hf : glossaryRequiredFields.find? (fun f => !(hasKey e f)) with
  | some f =>
    have hmem := List.mem_of_find?_eq_some hf
    have hprop := List.find?_some hf
    simp only [reduceCtorEq, false_iff]
    intro hcontra
    rw [hcontra.1 f hmem] at hprop
    simp at hprop
  | none =>
    have hall : ∀ f ∈ glossaryRequiredFields, hasKey e f = true := by
      intro f hfmem
      have := List.find?_eq_none.mp hf f hfmem
      simpa using this
    simp only []
    cases hu : isNumericPy (jget e "stitchesUsed") with
    | false => simp [hu]
    | true =>
      cases hc : isNumericPy (jget e "stitchesCreated") with
      | false => simp [hu, hc]
      | true =>
        simp [hu, hc]
        exact hall

theorem validateGlossaryEntries_ok_iff (g : Glossary) :
    validateGlossaryEntries g = .ok () ↔ ∀ p ∈ g, entryOk p.2 := by
  induction g with
  | nil => simp [validateGlossaryEntries]
  | cons p rest ih =>
    obtain ⟨abbr, e⟩ := p
    rw [validateGlossaryEntries]
    cases hv : validateGlossaryEntry abbr e with
    | error m =>
      simp only [reduceCtorEq, false_iff]
      intro hcontra
      have := (validateGlossaryEntry_ok_iff abbr e).mpr (hcontra (abbr, e) (by simp))
      rw [hv] at this
      exact absurd this (by simp)
    | ok u =>
      obtain ⟨⟩ := u
      have he : entryOk e := (validateGlossaryEntry_ok_iff abbr e).mp hv
      rw [ih]
      constructor
      · intro hrest p hp
        rcases List.mem_cons.mp hp with hp0 | hp1
        · subst hp0; exact he
        · exact hrest p hp1
      · intro hall p hp
        exact hall p (List.mem_cons_of_mem _ hp)

theorem validateGlossaryEntries_first_error (g1 g2 : Glossary) (abbr : String)
    (e : JObj) (m : String)
    (hok : ∀ p ∈ g1, entryOk p.2)
    (herr : validateGlossaryEntry abbr e = .error m) :
    validateGlossaryEntries (g1 ++ (abbr, e) :: g2) = .error m := by
  induction g1 with
  | nil =>
    rw [List.nil_append, validateGlossaryEntries, herr]
  | cons p rest ih =>
    obtain ⟨a2, e2⟩ := p
    rw [List.cons_append, validateGlossaryEntries]
    have he2 : entryOk e2 := hok (a2, e2) (by simp)
    have := (validateGlossaryEntry_ok_iff a2 e2).mpr he2
    rw [this]
    exact ih (fun p hp => hok p (List.mem_cons_of_mem _ hp))

theorem validateGlossaryEntry_error_names (abbr : String) (e : JObj) (m : String)
    (herr : validateGlossaryEntry abbr e = .error m) :
    (∃ f ∈ glossaryRequiredFields, m = glossaryMissingFieldMsg abbr f) ∨
      m = glossaryInvalidUsedMsg abbr ∨ m = glossaryInvalidCreatedMsg abbr := by
  unfold validateGlossaryEntry at herr
  cases hf : glossaryRequiredFields.find? (fun f => !(hasKey e f)) with
  | some f =>
    rw [hf] at herr
    simp at herr
    exact Or.inl ⟨f, List.mem_of_find?_eq_some hf, herr.symm⟩
  | none =>
    rw [hf] at herr
    simp only [] at herr
    cases hu : isNumericPy (jget e "stitchesUsed") with
    | false =>
      rw [hu] at herr
      simp at herr
      exact Or.inr (Or.inl herr.symm)
    | true =>
      rw [hu] at herr
      cases hc : isNumericPy (jget e "stitchesCreated") with
      | false =>
        rw [hc] at herr
        simp at herr
        exact Or.inr (Or.inr herr.symm)
      | true =>
        rw [hc] at herr
        simp at herr

theorem emitRows_length (rows : List (String × String)) (s c : Nat) (L : String) :
    (emitRows rows s c L).length = rows.length := by
  induction rows generalizing s with
  | nil => rfl
  | cons r rest ih =>
    obtain ⟨inst, sd⟩ := r
    simp only [emitRows, List.length_cons, ih]

theorem emitRows_getElem? (rows : List (String × String)) (s c : Nat) (L : String)
    (k : Nat) (inst sd : String) (hk : rows[k]? = some (inst, sd)) :
    (emitRows rows s c L)[k]? = some (mkRegularStep (s + k) c inst L sd) := by
  induction rows generalizing s k with
  | nil => simp at hk
  | cons r rest ih =>
    obtain ⟨i2, s2⟩ := r
    cases k with
    | zero =>
      simp at hk
      obtain ⟨h1, h2⟩ := hk
      subst h1
      subst h2
      simp [emitRows]
    | succ k2 =>
      simp only [List.getElem?_cons_succ] at hk
      have := ih (s + 1) k2 hk
      rw [show s + 1 + k2 = s + (k2 + 1) by omega] at this
      simpa [emitRows] using this

/-- Every record emitted by `emitRows` has its ending count equal to its
starting count (the script keeps `current_stitch_count` constant). -/
theorem emitRows_counts (rows : List (String × String)) (s c : Nat) (L : String) :
    ∀ r ∈ emitRows rows s c L,
      r.lookup "startingStitchCount" = some (.num (c : Int)) ∧
        r.lookup "endingStitchCount" = some (.num (c : Int)) := by
  induction rows generalizing s with
  | nil => simp [emitRows]
  | cons r0 rest ih =>
    obtain ⟨inst, sd⟩ := r0
    intro r hr
    rcases List.mem_cons.mp hr with h0 | h1
    · subst h0
      constructor <;> rfl
    · exact ih (s + 1) r h1

/-- Every record emitted by `emitRows` carries the section label it was
called with, and the side of its source row. -/
theorem emitRows_sides (rows : List (String × String)) (s c : Nat) (L : String) :
    (emitRows rows s c L).map (fun r => r.lookup "side") =
      rows.map (fun row => some (.str row.2)) := by
  induction rows generalizing s with
  | nil => rfl
  | cons r0 rest ih =>
    obtain ⟨inst, sd⟩ := r0
    simp only [emitRows, List.map_cons]
    rw [ih]
    rfl

theorem expandRowRepeat_succ (rows : List (String × String)) (t s c : Nat) (b : String) :
    expandRowRepeat rows (t + 1) s c b =
      expandRowRepeat rows t s c b ++
        emitRows rows (s + t * rows.length) c (b ++ " - Repeat " ++ toString (t + 1)) := by
  unfold expandRowRepeat
  rw [List.range_succ, List.flatMap_append]
  simp

theorem expandRowRepeat_length (rows : List (String × String)) (t s c : Nat) (b : String) :
    (expandRowRepeat rows t s c b).length = t * rows.length := by
  induction t with
  | zero => simp [expandRowRepeat]
  | succ t ih =>
    rw [expandRowRepeat_succ, List.length_append, ih, emitRows_length, Nat.succ_mul]

theorem expandRowRepeat_getElem? (rows : List (String × String)) (t s c : Nat)
    (b : String) (i k : Nat) (inst sd : String)
    (hi : i < t) (hk : rows[k]? = some (inst, sd)) :
    (expandRowRepeat rows t s c b)[i * rows.length + k]? =
      some (mkRegularStep (s + i * rows.length + k) c inst
        (b ++ " - Repeat " ++ toString (i + 1)) sd) := by
  have hkl : k < rows.length := by
    rw [List.getElem?_eq_some] at hk
    exact hk.1
  induction t with
  | zero => omega
  | succ t ih =>
    rw [expandRowRepeat_succ]
    by_cases hit : i < t
    · rw [List.getElem?_append_left]
      · exact ih hit
      · rw [expandRowRepeat_length]
        have h1 : i * rows.length + k < (i + 1) * rows.length := by
          rw [Nat.succ_mul]
          omega
        have h2 : (i + 1) * rows.length ≤ t * rows.length :=
          Nat.mul_le_mul_right rows.length (by omega)
        omega
    · have hit2 : i = t := by omega
      subst hit2
      rw [List.getElem?_append_right]
      · rw [expandRowRepeat_length]
        rw [show i * rows.length + k - i * rows.length = k by omega]
        exact emitRows_getElem? rows (s + i * rows.length) c _ k inst sd hk
      · rw [expandRowRepeat_length]
        omega

theorem pyEq_num_iff (m n : Int) : pyEq (.num m) (.num n) = true ↔ m = n := by
  simp [pyEq]

theorem lookup_setKey (o : JObj) (k : String) (v : JValue) :
    (setKey o k v).lookup k = some v := by
  induction o with
  | nil => simp [setKey, List.lookup]
  | cons kv rest ih =>
    obtain ⟨k2, v2⟩ := kv
    by_cases hk : k2 = k
    · subst hk
      simp [setKey, List.lookup]
    · have hne : (k == k2) = false := by
        simp only [beq_eq_false_iff_ne, ne_eq]
        intro hcontra
        exact hk hcontra.symm
      rw [setKey, if_neg hk, List.lookup]
      simp only [hne]
      exact ih

theorem run_pipeline_ok_of (resps : InterpreterResponses) (ctx : ProcessingContext)
    (sv : JValue) (g : Glossary) (steps : List JObj)
    (h1 : resps.structureResp = .ok sv) (h2 : resps.glossaryResp = .ok g)
    (h3 : resps.stepsResp = .ok steps)
    (hg : validateGlossaryEntries g = .ok ())
    (hs : validateStepsFrom 0 steps = .ok ())
    (hv : validatePairs steps = .ok .valid) :
    (run_pipeline resps ctx).1 =
      .ok { metadata := setKey ctx.metadata "maxSteps" (.num (steps.length : Int)),
            glossary := g, steps := steps } "validation_assembly" := by
  simp [run_pipeline, _execute_processing_pipeline, pass_1_structure_analysis,
    pass_2_glossary_building, pass_3_section_processing, _parse_glossary_response,
    _parse_steps_response, pass_4_validation_assembly, _validate_stitch_counts,
    h1, h2, h3, hg, hs, hv]

theorem run_pipeline_ok_inv (resps : InterpreterResponses) (ctx : ProcessingContext)
    (doc : NormalizedPatternDocument) (tag : String)
    (h : (run_pipeline resps ctx).1 = .ok doc tag) :
    ∃ steps, resps.stepsResp = .ok steps ∧
      validateStepsFrom 0 steps = .ok () ∧
      validatePairs steps = .ok .valid ∧
      doc.steps = steps := by
  unfold run_pipeline _execute_processing_pipeline at h
  cases h1 : resps.structureResp with
  | error e =>
    simp [pass_1_structure_analysis, h1] at h
  | ok sv =>
    simp only [pass_1_structure_analysis, h1] at h
    cases h2 : resps.glossaryResp with
    | error e =>
      simp [pass_2_glossary_building, h2] at h
    | ok g =>
      simp only [pass_2_glossary_building, h2] at h
      cases hge : validateGlossaryEntries g with
      | error e =>
        simp [_parse_glossary_response, hge] at h
      | ok u =>
        obtain ⟨⟩ := u
        simp only [_parse_glossary_response, hge] at h
        cases h3 : resps.stepsResp with
        | error e =>
          simp [pass_3_section_processing, h3] at h
        | ok steps =>
          simp only [pass_3_section_processing, h3] at h
          cases hse : validateStepsFrom 0 steps with
          | error e =>
            simp [_parse_steps_response, hse] at h
          | ok u2 =>
            obtain ⟨⟩ := u2
            simp only [_parse_steps_response, hse] at h
            cases hv : validatePairs steps with
            | error e =>
              simp [pass_4_validation_assembly, _validate_stitch_counts, hv] at h
            | ok r =>
              cases r with
              | mismatch a b ec sc =>
                simp [pass_4_validation_assembly, _validate_stitch_counts, hv] at h
              | valid =>
                simp only [pass_4_validation_assembly, _validate_stitch_counts,
                  Option.getD_some, hv] at h
                refine ⟨steps, rfl, hse, hv, ?_⟩
                injection h with hd ht
                rw [← hd]

/-! Claim theorems. -/

/-- C1: Continuity validation over a step sequence succeeds if and only if
every adjacent pair of steps satisfies `endingStitchCount` of the earlier
step equal to `startingStitchCount` of the later step; on the first
violating pair it fails with exactly that pair's step numbers and the two
mismatched counts.  The second conjunct's hypotheses constrain only the
steps up to the first violating pair, so the result is the same whatever
records follow it: no pair past the first violation is scanned or
reported. -/
theorem C1_continuity_validation (steps : List JObj) :
    ((∀ s ∈ steps, hasKey s "endingStitchCount" = true ∧
        hasKey s "startingStitchCount" = true) →
      (_validate_stitch_counts steps = .ok .valid ↔ List.Chain' contOk steps)) ∧
    (∀ j a b,
      steps[j]? = some a → steps[j + 1]? = some b →
      (∀ k c d, k < j → steps[k]? = some c → steps[k + 1]? = some d →
        hasKey c "endingStitchCount" = true ∧ hasKey d "startingStitchCount" = true ∧
          contOk c d) →
      hasKey a "endingStitchCount" = true → hasKey b "startingStitchCount" = true →
      pyEq (jget a "endingStitchCount") (jget b "startingStitchCount") = false →
      hasKey a "step" = true → hasKey b "step" = true →
      _validate_stitch_counts steps = .ok (.mismatch (jget a "step") (jget b "step")
        (jget a "endingStitchCount") (jget b "startingStitchCount"))) := by
  constructor
  · intro h
    exact validatePairs_valid_iff steps h
  · intro j a b hja hjb hprev hae hbt hmm hsa hsb
    exact validatePairs_first_mismatch steps j a b hja hjb hprev hae hbt hmm hsa hsb

/-- Witness for C1: on a concrete three-step list whose first pair already
mismatches (ending 12 vs starting 99) and whose third record is an empty
object that would raise `KeyError` if touched, validation returns exactly
the first pair's step numbers and counts; and a concrete matching pair
validates. -/
theorem C1_continuity_validation_witness :
    _validate_stitch_counts [c1StepA, c1StepB, c1Garbage] =
      .ok (.mismatch (.num 1) (.num 2) (.num 12) (.num 99)) ∧
    _validate_stitch_counts [c1StepA, c1StepBGood] = .ok .valid := by
  constructor
  · exact (C1_continuity_validation [c1StepA, c1StepB, c1Garbage]).2 0 c1StepA c1StepB
      rfl rfl (fun k c d hk _ _ => absurd hk (Nat.not_lt_zero k))
      (by decide) (by decide) (by decide) (by decide) (by decide)
  · refine ((C1_continuity_validation [c1StepA, c1StepBGood]).1 (by decide)).mpr ?_
    rw [List.chain'_cons]
    exact ⟨by decide, List.chain'_singleton _⟩

/-- C3: in every document the pipeline validates and assembles, step
numbering is strictly sequential from 1 and gapless — `steps[i].step`
equals `i + 1` under the code's equality, and a numeric `step` field is
literally `i + 1`; and a steps sequence violating the numbering is
rejected by Pass 3 with an error naming the expected and the actual step
number. -/
theorem C3_sequential_numbering :
    (∀ (resps : InterpreterResponses) (ctx : ProcessingContext)
        (doc : NormalizedPatternDocument) (tag : String),
      (run_pipeline resps ctx).1 = .ok doc tag →
      ∀ (i : Nat) (a : JObj), doc.steps[i]? = some a →
        pyEq (jget a "step") (.num ((i : Int) + 1)) = true ∧
        ∀ m : Int, jget a "step" = .num m → m = (i : Int) + 1) ∧
    (∀ (steps : List JObj) (j : Nat) (a : JObj),
      steps[j]? = some a →
      (∀ k b, k < j → steps[k]? = some b → stepOk k b) →
      (∀ f ∈ stepRequiredFields, hasKey a f = true) →
      pyEq (jget a "step") (.num ((j : Int) + 1)) = false →
      _parse_steps_response steps =
        .error (stepNumberingErrorMsg (j + 1) (jget a "step"))) := by
  constructor
  · intro resps ctx doc tag h i a hia
    obtain ⟨steps, hresp, hval, hpairs, hsteps⟩ := run_pipeline_ok_inv resps ctx doc tag h
    rw [hsteps] at hia
    have hok := (validateStepsFrom_ok_iff steps 0).mp hval i a hia
    rw [Nat.zero_add] at hok
    obtain ⟨hf, hp⟩ := hok
    refine ⟨hp, ?_⟩
    intro m hm
    rw [hm] at hp
    exact (pyEq_num_iff m ((i : Int) + 1)).mp hp
  · intro steps j a hja hprev hfields hnum
    have herr := validateStepsFrom_numbering_error steps 0 j a hja
      (fun k b hk hkb => by simpa using hprev k b hk hkb) hfields
      (by simpa using hnum)
    rw [Nat.zero_add] at herr
    unfold _parse_steps_response
    rw [herr]

/-- Witness for C3: the concrete run on `c2Resps` yields a document whose
only step is numbered 1, and the singleton list holding a step numbered 7
is rejected naming expected 1 and actual 7. -/
theorem C3_sequential_numbering_witness :
    pyEq (jget c2Step "step") (.num 1) = true ∧
    _parse_steps_response [c3BadStep] = .error (stepNumberingErrorMsg 1 (.num 7)) := by
  constructor
  · exact ((C3_sequential_numbering).1 c2Resps baseCtx
      { metadata := [("name", .str "Demo"), ("author", .str "A"), ("craft", .str "knitting"),
          ("maxSteps", .num 1)],
        glossary := c2Glossary, steps := [c2Step] } "validation_assembly"
      rfl 0 c2Step rfl).1
  · exact (C3_sequential_numbering).2 [c3BadStep] 0 c3BadStep rfl
      (fun k b hk _ => absurd hk (Nat.not_lt_zero k)) (by decide) (by decide)

/-- C10: Pass-3 step validation does not require the `side` field — its
required-field list omits it — so any steps array whose elements carry the
six required fields with correct sequential numbering validates even when
every element lacks `side`, and the validated document's steps then carry
no side at all. -/
theorem C10_side_not_required (steps : List JObj)
    (h : ∀ (j : Nat) (a : JObj), steps[j]? = some a → stepOk j a)
    (hside : ∀ a ∈ steps, a.lookup "side" = none) :
    "side" ∉ stepRequiredFields ∧
    _parse_steps_response steps = .ok steps ∧
    ∀ a ∈ steps, a.lookup "side" = none := by
  refine ⟨by decide, ?_, hside⟩
  have hv : validateStepsFrom 0 steps = .ok () :=
    (validateStepsFrom_ok_iff steps 0).mpr (fun j a hja => by simpa using h j a hja)
  unfold _parse_steps_response
  rw [hv]

/-- Witness for C10: two concrete sideless steps validate and come back
unchanged. -/
theorem C10_side_not_required_witness :
    _parse_steps_response c10Steps = .ok c10Steps := by
  refine (C10_side_not_required c10Steps ?_ ?_).2.1
  · intro j a hja
    match j with
    | 0 =>
      simp [c10Steps] at hja
      subst hja
      decide
    | 1 =>
      simp [c10Steps] at hja
      subst hja
      decide
    | j + 2 => simp [c10Steps] at hja
  · intro a ha
    simp only [c10Steps, List.mem_cons, List.not_mem_nil, or_false] at ha
    rcases ha with h | h <;> subst h <;> rfl

/-- Counterexample for C5 as stated: the claim requires both count fields
to be non-negative, but `_parse_glossary_response` accepts a glossary
whose only entry has `stitchesUsed = -1` (numeric but negative) — the
source checks `isinstance` only, never non-negativity. -/
theorem C5_counterexample :
    _parse_glossary_response [("neg", c5NegEntry)] = .ok [("neg", c5NegEntry)] ∧
    c5NegEntry.lookup "stitchesUsed" = some (.num (-1)) ∧
    (-1 : Int) < 0 := by
  exact ⟨rfl, rfl, by decide⟩

/-- C5 (amended): glossary validation accepts a glossary if and only if
every entry has all four required fields with the two count fields
numeric (non-negativity is not checked); on the first invalid entry the
whole pass fails with that entry's error, which always names the
offending abbreviation, and no partial glossary is ever accepted. -/
theorem C5_glossary_validation :
    (∀ g : Glossary, _parse_glossary_response g = .ok g ↔ ∀ p ∈ g, entryOk p.2) ∧
    (∀ (g1 g2 : Glossary) (abbr : String) (e : JObj) (m : String),
      (∀ p ∈ g1, entryOk p.2) → validateGlossaryEntry abbr e = .error m →
      _parse_glossary_response (g1 ++ (abbr, e) :: g2) = .error m) ∧
    (∀ (abbr : String) (e : JObj) (m : String),
      validateGlossaryEntry abbr e = .error m →
      (∃ f ∈ glossaryRequiredFields, m = glossaryMissingFieldMsg abbr f) ∨
        m = glossaryInvalidUsedMsg abbr ∨ m = glossaryInvalidCreatedMsg abbr) := by
  refine ⟨?_, ?_, validateGlossaryEntry_error_names⟩
  · intro g
    unfold _parse_glossary_response
    cases hg : validateGlossaryEntries g with
    | error m =>
      simp only [reduceCtorEq, false_iff]
      intro hcontra
      have := (validateGlossaryEntries_ok_iff g).mpr hcontra
      rw [hg] at this
      exact absurd this (by simp)
    | ok u =>
      obtain ⟨⟩ := u
      constructor
      · intro _
        exact (validateGlossaryEntries_ok_iff g).mp hg
      · intro _
        rfl
  · intro g1 g2 abbr e m hok herr
    unfold _parse_glossary_response
    rw [validateGlossaryEntries_first_error g1 g2 abbr e m hok herr]

/-- Witness for C5: the Fairy Kiss glossary validates in full, and a
glossary whose second entry lacks `description` fails with the error
naming that abbreviation. -/
theorem C5_glossary_validation_witness :
    _parse_glossary_response fairyKissGlossary = .ok fairyKissGlossary ∧
    _parse_glossary_response
        [("k", [("name", .str "Knit"), ("description", .str "Knit stitch."),
          ("stitchesUsed", .num 1), ("stitchesCreated", .num 1)]),
         ("bad", [("name", .str "Bad")])] =
      .error (glossaryMissingFieldMsg "bad" "description") := by
  constructor
  · exact (C5_glossary_validation.1 fairyKissGlossary).mpr (by decide)
  · exact C5_glossary_validation.2.1
      [("k", [("name", .str "Knit"), ("description", .str "Knit stitch."),
        ("stitchesUsed", .num 1), ("stitchesCreated", .num 1)])]
      [] "bad" [("name", .str "Bad")] (glossaryMissingFieldMsg "bad" "description")
      (by decide) rfl

/-- C4: the orchestrator never runs a later pass after an earlier pass
fails — a pass failure is returned verbatim (with its originating pass
name) as the run's outcome, and the run's entire result is independent of
every later pass function. -/
theorem C4_fail_fast {δ : Type} (p1 : ProcessingContext → PassResult JValue)
    (p2 : ProcessingContext → PassResult Glossary)
    (p3 : ProcessingContext → PassResult (List JObj))
    (p4 : ProcessingContext → PassResult δ) (ctx : ProcessingContext) :
    (∀ e s, p1 ctx = .fail e s →
      (_execute_processing_pipeline p1 p2 p3 p4 ctx).1 = .fail e s ∧
      ∀ q2 q3 q4, _execute_processing_pipeline p1 q2 q3 q4 ctx =
        _execute_processing_pipeline p1 p2 p3 p4 ctx) ∧
    (∀ d1 t1 e s, p1 ctx = .ok d1 t1 →
      p2 { ctx with «structure» := some d1 } = .fail e s →
      (_execute_processing_pipeline p1 p2 p3 p4 ctx).1 = .fail e s ∧
      ∀ q3 q4, _execute_processing_pipeline p1 p2 q3 q4 ctx =
        _execute_processing_pipeline p1 p2 p3 p4 ctx) ∧
    (∀ d1 t1 d2 t2 e s, p1 ctx = .ok d1 t1 →
      p2 { ctx with «structure» := some d1 } = .ok d2 t2 →
      p3 { ctx with «structure» := some d1, glossary := some d2 } = .fail e s →
      (_execute_processing_pipeline p1 p2 p3 p4 ctx).1 = .fail e s ∧
      ∀ q4, _execute_processing_pipeline p1 p2 p3 q4 ctx =
        _execute_processing_pipeline p1 p2 p3 p4 ctx) := by
  refine ⟨?_, ?_, ?_⟩
  · intro e s h1
    constructor
    · simp only [_execute_processing_pipeline, h1]
    · intro q2 q3 q4
      simp only [_execute_processing_pipeline, h1]
  · intro d1 t1 e s h1 h2
    constructor
    · simp only [_execute_processing_pipeline, h1, h2]
    · intro q3 q4
      simp only [_execute_processing_pipeline, h1, h2]
  · intro d1 t1 d2 t2 e s h1 h2 h3
    constructor
    · simp only [_execute_processing_pipeline, h1, h2, h3]
    · intro q4
      simp only [_execute_processing_pipeline, h1, h2, h3]

/-- Witness for C4: with a failing Pass 1 the concrete pipeline returns
the Pass-1 failure verbatim. -/
theorem C4_fail_fast_witness :
    (_execute_processing_pipeline (fun _ => .fail "api error" "structure_analysis")
      (fun _ => .ok [] "glossary_building") (fun _ => .ok [] "section_processing")
      (fun _ => (.ok () "validation_assembly" : PassResult Unit)) baseCtx).1 =
      .fail "api error" "structure_analysis" := by
  exact ((C4_fail_fast (fun _ => .fail "api error" "structure_analysis")
    (fun _ => .ok [] "glossary_building") (fun _ => .ok [] "section_processing")
    (fun _ => (.ok () "validation_assembly" : PassResult Unit)) baseCtx).1
    "api error" "structure_analysis" rfl).1

/-- C7: a failed pass never mutates the processing context — each field is
assigned only after its owning pass succeeds, so after a failure of Pass
1, 2 or 3 the fields owned by that pass and all later passes are still
unset. -/
theorem C7_no_mutation_on_failure {δ : Type}
    (p1 : ProcessingContext → PassResult JValue)
    (p2 : ProcessingContext → PassResult Glossary)
    (p3 : ProcessingContext → PassResult (List JObj))
    (p4 : ProcessingContext → PassResult δ) (ctx : ProcessingContext)
    (_h0 : ctx.«structure» = none) (hg : ctx.glossary = none) (hs : ctx.steps = none) :
    (∀ e s, p1 ctx = .fail e s →
      (_execute_processing_pipeline p1 p2 p3 p4 ctx).2 = ctx) ∧
    (∀ d1 t1 e s, p1 ctx = .ok d1 t1 →
      p2 { ctx with «structure» := some d1 } = .fail e s →
      (_execute_processing_pipeline p1 p2 p3 p4 ctx).2.«structure» = some d1 ∧
      (_execute_processing_pipeline p1 p2 p3 p4 ctx).2.glossary = none ∧
      (_execute_processing_pipeline p1 p2 p3 p4 ctx).2.steps = none) ∧
    (∀ d1 t1 d2 t2 e s, p1 ctx = .ok d1 t1 →
      p2 { ctx with «structure» := some d1 } = .ok d2 t2 →
      p3 { ctx with «structure» := some d1, glossary := some d2 } = .fail e s →
      (_execute_processing_pipeline p1 p2 p3 p4 ctx).2.glossary = some d2 ∧
      (_execute_processing_pipeline p1 p2 p3 p4 ctx).2.steps = none) := by
  refine ⟨?_, ?_, ?_⟩
  · intro e s h1
    simp only [_execute_processing_pipeline, h1]
  · intro d1 t1 e s h1 h2
    simp only [_execute_processing_pipeline, h1, h2]
    exact ⟨trivial, hg, hs⟩
  · intro d1 t1 d2 t2 e s h1 h2 h3
    simp only [_execute_processing_pipeline, h1, h2, h3]
    exact ⟨trivial, hs⟩

/-- Witness for C7: with Pass 2 failing, the final context has the
Pass-1 structure set but glossary and steps still unset. -/
theorem C7_no_mutation_on_failure_witness :
    ((_execute_processing_pipeline (fun _ => .ok (.obj []) "structure_analysis")
      (fun _ => .fail "bad glossary" "glossary_building")
      (fun _ => .ok [] "section_processing")
      (fun _ => (.ok () "validation_assembly" : PassResult Unit)) baseCtx).2.«structure» =
        some (.obj [])) ∧
    ((_execute_processing_pipeline (fun _ => .ok (.obj []) "structure_analysis")
      (fun _ => .fail "bad glossary" "glossary_building")
      (fun _ => .ok [] "section_processing")
      (fun _ => (.ok () "validation_assembly" : PassResult Unit)) baseCtx).2.glossary =
        none) ∧
    ((_execute_processing_pipeline (fun _ => .ok (.obj []) "structure_analysis")
      (fun _ => .fail "bad glossary" "glossary_building")
      (fun _ => .ok [] "section_processing")
      (fun _ => (.ok () "validation_assembly" : PassResult Unit)) baseCtx).2.steps =
        none) := by
  exact (C7_no_mutation_on_failure (fun _ => .ok (.obj []) "structure_analysis")
    (fun _ => .fail "bad glossary" "glossary_building")
    (fun _ => .ok [] "section_processing")
    (fun _ => (.ok () "validation_assembly" : PassResult Unit)) baseCtx
    rfl rfl rfl).2.1 (.obj []) "structure_analysis" "bad glossary" "glossary_building"
    rfl rfl

/-- C6: on successful validation, Pass 4 sets `metadata.maxSteps` to the
number of step records, attaches the glossary and the steps unchanged,
and an empty step sequence is vacuously valid and yields a document with
`maxSteps = 0`. -/
theorem C6_assembly (ctx : ProcessingContext) (g : Glossary) (s : List JObj)
    (hg : ctx.glossary = some g) (hs : ctx.steps = some s)
    (hv : _validate_stitch_counts s = .ok .valid) :
    pass_4_validation_assembly ctx =
      .ok { metadata := setKey ctx.metadata "maxSteps" (.num (s.length : Int)),
            glossary := g, steps := s } "validation_assembly" ∧
    (setKey ctx.metadata "maxSteps" (.num (s.length : Int))).lookup "maxSteps" =
      some (.num (s.length : Int)) ∧
    _validate_stitch_counts ([] : List JObj) = .ok .valid ∧
    (∀ (ctx2 : ProcessingContext) (g2 : Glossary),
      ctx2.glossary = some g2 → ctx2.steps = some [] →
      pass_4_validation_assembly ctx2 =
        .ok { metadata := setKey ctx2.metadata "maxSteps" (.num 0),
              glossary := g2, steps := [] } "validation_assembly") := by
  refine ⟨?_, lookup_setKey ctx.metadata "maxSteps" (.num (s.length : Int)), rfl, ?_⟩
  · unfold pass_4_validation_assembly
    rw [hs, hg]
    simp only [Option.getD_some]
    rw [hv]
  · intro ctx2 g2 hg2 hs2
    unfold pass_4_validation_assembly
    rw [hs2, hg2]
    simp only [Option.getD_some]
    rfl

/-- Witness for C6: a context holding the one-step `c2` data assembles
with `maxSteps = 1` and the data unchanged, and a context with an empty
step list assembles with `maxSteps = 0`. -/
theorem C6_assembly_witness :
    pass_4_validation_assembly
        { baseCtx with glossary := some c2Glossary, steps := some [c2Step] } =
      .ok { metadata := [("name", .str "Demo"), ("author", .str "A"),
              ("craft", .str "knitting"), ("maxSteps", .num 1)],
            glossary := c2Glossary, steps := [c2Step] } "validation_assembly" ∧
    pass_4_validation_assembly
        { baseCtx with glossary := some c2Glossary, steps := some [] } =
      .ok { metadata := [("name", .str "Demo"), ("author", .str "A"),
              ("craft", .str "knitting"), ("maxSteps", .num 0)],
            glossary := c2Glossary, steps := [] } "validation_assembly" := by
  have h := C6_assembly
    { baseCtx with glossary := some c2Glossary, steps := some [c2Step] }
    c2Glossary [c2Step] rfl rfl rfl
  exact ⟨h.1, h.2.2.2 { baseCtx with glossary := some c2Glossary, steps := some [] }
    c2Glossary rfl rfl⟩

/-- Counterexample for C2 as stated: the pipeline assembles (and returns
as its successful outcome) a document containing a step whose counts jump
from 10 to 50 although its instruction's only token `k` is literal,
covered by the glossary, and has glossary delta 0 — nothing in the
pipeline re-derives stitch counts from the glossary, so the violating
step is not rejected. -/
theorem C2_counterexample :
    (run_pipeline c2Resps baseCtx).1 =
      .ok { metadata := [("name", .str "Demo"), ("author", .str "A"),
              ("craft", .str "knitting"), ("maxSteps", .num 1)],
            glossary := c2Glossary, steps := [c2Step] } "validation_assembly" ∧
    specTokens "k" = ["k"] ∧
    specRowDelta c2Glossary "k" = some 0 ∧
    jget c2Step "endingStitchCount" = .num 50 ∧
    jget c2Step "startingStitchCount" = .num 10 ∧
    (50 : Int) - 10 ≠ 0 := by
  exact ⟨rfl, rfl, rfl, rfl, rfl, by decide⟩

/-- C2 (amended): the pipeline does not re-derive stitch counts from the
glossary.  Pass 3 checks only required-field presence and sequential
numbering, Pass 4 only adjacent-pair continuity, so for any glossary
passing the schema check and any steps passing numbering and continuity
the document is assembled with the steps attached unchanged — no relation
between a row's count change and the glossary deltas of its tokens is
required; the Text Interpreter's arithmetic is accepted as returned. -/
theorem C2_no_rederivation (resps : InterpreterResponses) (ctx : ProcessingContext)
    (sv : JValue) (g : Glossary) (steps : List JObj)
    (h1 : resps.structureResp = .ok sv) (h2 : resps.glossaryResp = .ok g)
    (h3 : resps.stepsResp = .ok steps)
    (hg : validateGlossaryEntries g = .ok ())
    (hs : validateStepsFrom 0 steps = .ok ())
    (hv : validatePairs steps = .ok .valid) :
    (run_pipeline resps ctx).1 =
      .ok { metadata := setKey ctx.metadata "maxSteps" (.num (steps.length : Int)),
            glossary := g, steps := steps } "validation_assembly" :=
  run_pipeline_ok_of resps ctx sv g steps h1 h2 h3 hg hs hv

/-- Witness for the amended C2: the arithmetic-violating `c2Step` (counts
10 → 50 under a zero-delta token) is assembled unchanged. -/
theorem C2_no_rederivation_witness :
    (run_pipeline c2Resps baseCtx).1 =
      .ok { metadata := [("name", .str "Demo"), ("author", .str "A"),
              ("craft", .str "knitting"), ("maxSteps", .num 1)],
            glossary := c2Glossary, steps := [c2Step] } "validation_assembly" := by
  exact C2_no_rederivation c2Resps baseCtx (.obj []) c2Glossary [c2Step]
    rfl rfl rfl rfl rfl rfl

/-- C9: expanding a row-repeat of an n-row template with multiplier t
emits exactly n·t records, grouped into t consecutive emissions of the
template whose section labels are "… - Repeat 1" through "… - Repeat t"
(record i·n + k is row k of emission i, with consecutively increasing
step numbers), and every emitted record's ending count equals its
starting count, carried unchanged across emissions — the script keeps the
count constant, so in particular a net-zero template leaves it fixed. -/
theorem C9_row_repeat_expansion (rows : List (String × String))
    (times startStep count : Nat) (sectionBase : String) :
    (expandRowRepeat rows times startStep count sectionBase).length =
      times * rows.length ∧
    (∀ (i k : Nat) (inst sd : String), i < times → rows[k]? = some (inst, sd) →
      (expandRowRepeat rows times startStep count sectionBase)[i * rows.length + k]? =
        some (mkRegularStep (startStep + i * rows.length + k) count inst
          (sectionBase ++ " - Repeat " ++ toString (i + 1)) sd)) ∧
    (∀ r ∈ expandRowRepeat rows times startStep count sectionBase,
      r.lookup "endingStitchCount" = some (.num (count : Int)) ∧
      r.lookup "startingStitchCount" = some (.num (count : Int))) := by
  refine ⟨expandRowRepeat_length rows times startStep count sectionBase,
    fun i k inst sd hi hk =>
      expandRowRepeat_getElem? rows times startStep count sectionBase i k inst sd hi hk,
    ?_⟩
  intro r hr
  unfold expandRowRepeat at hr
  rw [List.mem_flatMap] at hr
  obtain ⟨i, hi, hri⟩ := hr
  have h := emitRows_counts rows (startStep + i * rows.length) count
    (sectionBase ++ " - Repeat " ++ toString (i + 1)) r hri
  exact ⟨h.2, h.1⟩

/-- Witness for C9, in the shape of the spec's Scenario B: a 2-row
net-zero template repeated 5 times yields exactly 10 records, and record
3·2 + 1 = 7 is row 1 of emission 3, labelled "Main Body - Repeat 4", with
both counts still 100. -/
theorem C9_row_repeat_expansion_witness :
    (expandRowRepeat c9DemoRows 5 1 100 "Main Body").length = 10 ∧
    (expandRowRepeat c9DemoRows 5 1 100 "Main Body")[7]? =
      some (mkRegularStep 8 100 "p to end" "Main Body - Repeat 4" "WS") := by
  constructor
  · exact (C9_row_repeat_expansion c9DemoRows 5 1 100 "Main Body").1
  · exact (C9_row_repeat_expansion c9DemoRows 5 1 100 "Main Body").2.1
      3 1 "p to end" "WS" (by omega) rfl

set_option maxRecDepth 4000 in
/-- Counterexample for C8 as stated: the special-instruction records the
generator emits (cast-on, bind-off) lack `startingStitchCount`,
`endingStitchCount` and `instruction`, so the pipeline's Pass-3 step
validation rejects them instead of accepting them — validating the Fairy
Kiss steps fails on the very first record, the cast-on (which is also
numbered 0, a second violation the validator never even reaches). -/
theorem C8_counterexample :
    fairy_kiss_steps[0]? = some castOnStep ∧
    castOnStep.lookup "type" = some (.str "specialInstruction") ∧
    _parse_steps_response fairy_kiss_steps =
      .error (stepMissingFieldMsg 1 "startingStitchCount") := by
  exact ⟨rfl, rfl, rfl⟩

set_option maxRecDepth 4000 in
/-- C8 (amended): every special instruction is emitted as its own step
record with `type = specialInstruction`, with no stitch-count fields and
no side (the Fairy Kiss cast-on carries no count field either — the
script tracks the running count in a separate variable), and it does not
consume a side or advance the row alternation: the sides of the emitted
regular rows come solely from the row templates, unaffected by the
surrounding special records.  Such records are, however, NOT accepted by
the pipeline's Pass-3 step validation, which requires
`startingStitchCount`, `endingStitchCount` and `instruction` on every
step: any steps array beginning with the cast-on record is rejected. -/
theorem C8_special_instructions :
    (fairy_kiss_steps[0]? = some castOnStep ∧
      fairy_kiss_steps[456]? = some (bindOffStep 456)) ∧
    (∀ r ∈ [castOnStep, bindOffStep 456],
      r.lookup "type" = some (.str "specialInstruction") ∧
      r.lookup "startingStitchCount" = none ∧
      r.lookup "endingStitchCount" = none ∧
      r.lookup "side" = none) ∧
    (∀ (rows : List (String × String)) (s c : Nat) (L : String),
      (emitRows rows s c L).map (fun r => r.lookup "side") =
        rows.map (fun row => some (.str row.2))) ∧
    (∀ steps : List JObj, steps[0]? = some castOnStep →
      _parse_steps_response steps =
        .error (stepMissingFieldMsg 1 "startingStitchCount")) := by
  refine ⟨⟨rfl, rfl⟩, ?_, emitRows_sides, ?_⟩
  · intro r hr
    simp only [List.mem_cons, List.not_mem_nil, or_false] at hr
    rcases hr with h | h <;> subst h <;> exact ⟨rfl, rfl, rfl, rfl⟩
  · intro steps h0
    cases steps with
    | nil => simp at h0
    | cons s rest =>
      simp only [List.getElem?_cons_zero, Option.some.injEq] at h0
      subst h0
      rfl

/-- Witness for the amended C8: the singleton list holding the cast-on
record is rejected for the missing count field, and the setup template's
sides appear verbatim on the emitted setup rows. -/
theorem C8_special_instructions_witness :
    _parse_steps_response [castOnStep] =
      .error (stepMissingFieldMsg 1 "startingStitchCount") ∧
    (emitRows setup_rows 1 100 "Setup").map (fun r => r.lookup "side") =
      [some (.str "WS"), some (.str "RS"), some (.str "WS"),
        some (.str "RS"), some (.str "WS")] := by
  constructor
  · exact C8_special_instructions.2.2.2 [castOnStep] rfl
  · exact C8_special_instructions.2.2.1 setup_rows 1 100 "Setup"
